import Mathlib

/-!
Verification development for the HTTP/2 client repository.

Each Rust source construct named in the claims is shallowly embedded as a
Lean definition: machine integers become Nat with explicit truncation where
the Rust code truncates or wraps, byte buffers become List Nat, fallible
paths become Except or Option, and a Rust panic (index out of bounds,
arithmetic underflow, expect) is modelled as a distinguished result.
-/

namespace Http2

/-- FrameType from src/types.rs and src/enums.rs (identical): the ten RFC 7540
frame type codes. -/
inductive FrameType
  | Data
  | Headers
  | Priority
  | ResetStream
  | Settings
  | PushPromise
  | Ping
  | GoAway
  | WindowUpdate
  | Continuation
deriving DecidableEq, Repr

/-- The u8 discriminant of each frame type (`self.typ() as u8`). -/
def FrameType.code : FrameType → Nat
  | .Data => 0x0
  | .Headers => 0x1
  | .Priority => 0x2
  | .ResetStream => 0x3
  | .Settings => 0x4
  | .PushPromise => 0x5
  | .Ping => 0x6
  | .GoAway => 0x7
  | .WindowUpdate => 0x8
  | .Continuation => 0x9

/-- `FrameType::from_u8` (derived FromPrimitive): inverse of the discriminant. -/
def FrameType.from_u8 (n : Nat) : Option FrameType :=
  match n with
  | 0x0 => some .Data
  | 0x1 => some .Headers
  | 0x2 => some .Priority
  | 0x3 => some .ResetStream
  | 0x4 => some .Settings
  | 0x5 => some .PushPromise
  | 0x6 => some .Ping
  | 0x7 => some .GoAway
  | 0x8 => some .WindowUpdate
  | 0x9 => some .Continuation
  | _ => none

/-- ErrorType from src/types.rs / src/enums.rs: the fourteen RFC 7540 error codes. -/
inductive ErrorType
  | NoError
  | ProtocolError
  | InternalError
  | FlowControlError
  | SettingsTimeout
  | StreamClosed
  | FrameSizeError
  | RefusedStream
  | Cancel
  | CompressionError
  | ConnectError
  | EnhanceYourCalm
  | InadequateSecurity
  | Http11Required
deriving DecidableEq, Repr

/-- The u32 discriminant of each error code (`error as u32`). -/
def ErrorType.code : ErrorType → Nat
  | .NoError => 0x0
  | .ProtocolError => 0x1
  | .InternalError => 0x2
  | .FlowControlError => 0x3
  | .SettingsTimeout => 0x4
  | .StreamClosed => 0x5
  | .FrameSizeError => 0x6
  | .RefusedStream => 0x7
  | .Cancel => 0x8
  | .CompressionError => 0x9
  | .ConnectError => 0xa
  | .EnhanceYourCalm => 0xb
  | .InadequateSecurity => 0xc
  | .Http11Required => 0xd

/-- `ErrorType::from_u32` (derived FromPrimitive). -/
def ErrorType.from_u32 (n : Nat) : Option ErrorType :=
  match n with
  | 0x0 => some .NoError
  | 0x1 => some .ProtocolError
  | 0x2 => some .InternalError
  | 0x3 => some .FlowControlError
  | 0x4 => some .SettingsTimeout
  | 0x5 => some .StreamClosed
  | 0x6 => some .FrameSizeError
  | 0x7 => some .RefusedStream
  | 0x8 => some .Cancel
  | 0x9 => some .CompressionError
  | 0xa => some .ConnectError
  | 0xb => some .EnhanceYourCalm
  | 0xc => some .InadequateSecurity
  | 0xd => some .Http11Required
  | _ => none

/-- SettingsParameter from src/types.rs / src/enums.rs. -/
inductive SettingsParameter
  | HeaderTableSize
  | EnablePush
  | MaxConcurrentStreams
  | InitialWindowSize
  | MaxFrameSize
  | MaxHeaderListSize
deriving DecidableEq, Repr

/-- The u16 discriminant (`(*key) as u16`). -/
def SettingsParameter.code : SettingsParameter → Nat
  | .HeaderTableSize => 0x1
  | .EnablePush => 0x2
  | .MaxConcurrentStreams => 0x3
  | .InitialWindowSize => 0x4
  | .MaxFrameSize => 0x5
  | .MaxHeaderListSize => 0x6

/-- `SettingsParameter::from_u16` (derived FromPrimitive). -/
def SettingsParameter.from_u16 (n : Nat) : Option SettingsParameter :=
  match n with
  | 0x1 => some .HeaderTableSize
  | 0x2 => some .EnablePush
  | 0x3 => some .MaxConcurrentStreams
  | 0x4 => some .InitialWindowSize
  | 0x5 => some .MaxFrameSize
  | 0x6 => some .MaxHeaderListSize
  | _ => none

namespace Hpack

/-- TableEntry from src/hpack.rs. Bytes values are modelled as Lean strings
(their byte length is the UTF-8 length); `size` is precomputed as in the
source: name length + value length + 32. -/
structure TableEntry where
  size : Nat
  name : String
  value : String
deriving DecidableEq, Repr

/-- `TableEntry::new`. -/
def TableEntry.new (name value : String) : TableEntry :=
  { size := name.utf8ByteSize + value.utf8ByteSize + 32, name := name, value := value }

/-- STATIC_TABLE from src/hpack.rs: the 61-entry RFC 7541 Appendix A table,
built by the `static_table!` macro with the same size formula as
`TableEntry::new`. -/
def STATIC_TABLE : List TableEntry :=
  [ TableEntry.new ":authority" ""
  , TableEntry.new ":method" "GET"
  , TableEntry.new ":method" "POST"
  , TableEntry.new ":path" "/"
  , TableEntry.new ":path" "/index.html"
  , TableEntry.new ":scheme" "http"
  , TableEntry.new ":scheme" "https"
  , TableEntry.new ":status" "200"
  , TableEntry.new ":status" "204"
  , TableEntry.new ":status" "206"
  , TableEntry.new ":status" "304"
  , TableEntry.new ":status" "400"
  , TableEntry.new ":status" "404"
  , TableEntry.new ":status" "500"
  , TableEntry.new "accept-charset" ""
  , TableEntry.new "accept-encoding" "gzip, deflate"
  , TableEntry.new "accept-language" ""
  , TableEntry.new "accept-ranges" ""
  , TableEntry.new "accept" ""
  , TableEntry.new "access-control-allow-origin" ""
  , TableEntry.new "age" ""
  , TableEntry.new "allow" ""
  , TableEntry.new "authorization" ""
  , TableEntry.new "cache-control" ""
  , TableEntry.new "content-disposition" ""
  , TableEntry.new "content-encoding" ""
  , TableEntry.new "content-language" ""
  , TableEntry.new "content-length" ""
  , TableEntry.new "content-location" ""
  , TableEntry.new "content-range" ""
  , TableEntry.new "content-type" ""
  , TableEntry.new "cookie" ""
  , TableEntry.new "date" ""
  , TableEntry.new "etag" ""
  , TableEntry.new "expect" ""
  , TableEntry.new "expires" ""
  , TableEntry.new "from" ""
  , TableEntry.new "host" ""
  , TableEntry.new "if-match" ""
  , TableEntry.new "if-modified-since" ""
  , TableEntry.new "if-none-match" ""
  , TableEntry.new "if-range" ""
  , TableEntry.new "if-unmodified-since" ""
  , TableEntry.new "last-modified" ""
  , TableEntry.new "link" ""
  , TableEntry.new "location" ""
  , TableEntry.new "max-forwards" ""
  , TableEntry.new "proxy-authenticate" ""
  , TableEntry.new "proxy-authorization" ""
  , TableEntry.new "range" ""
  , TableEntry.new "referer" ""
  , TableEntry.new "refresh" ""
  , TableEntry.new "retry-after" ""
  , TableEntry.new "server" ""
  , TableEntry.new "set-cookie" ""
  , TableEntry.new "strict-transport-security" ""
  , TableEntry.new "transfer-encoding" ""
  , TableEntry.new "user-agent" ""
  , TableEntry.new "vary" ""
  , TableEntry.new "via" ""
  , TableEntry.new "www-authenticate" "" ]

/-- Table from src/hpack.rs. The VecDeque is a list whose head is the front
of the deque (the most recently pushed entry, since `push` uses push_front). -/
structure Table where
  max_size : Nat
  current_size : Nat
  table : List TableEntry
deriving DecidableEq, Repr

/-- `Table::new` (capacity hints have no observable effect). -/
def Table.new (max_size : Nat) : Table :=
  { max_size := max_size, current_size := 0, table := [] }

/-- `Table::get`: static table first (1-based), else the dynamic deque at
offset `index - STATIC_TABLE.len()` from the front. The source computes
`index - 1` and `index - 61` in usize, which underflows (debug panic) for
index 0; all theorems below use index at least 1, where Nat truncated
subtraction agrees with the source. -/
def Table.get (t : Table) (index : Nat) : Option TableEntry :=
  (STATIC_TABLE.get? (index - 1)) <|> t.table.get? (index - STATIC_TABLE.length)

/-- The while loop body of `Table::resize`, acting on the deque listed
back-to-front (head = `pop_back` victim = oldest entry): while the current
size exceeds the budget, pop the oldest entry and subtract its size; an empty
deque breaks the loop. -/
def evictLoop (max_size : Nat) : Nat → List TableEntry → Nat × List TableEntry
  | current_size, [] => (current_size, [])
  | current_size, popped :: rest =>
    if max_size < current_size then evictLoop max_size (current_size - popped.size) rest
    else (current_size, popped :: rest)

/-- `Table::resize`: set the new budget, then evict from the back until the
current size is within budget (or the deque is empty). -/
def Table.resize (t : Table) (size : Nat) : Table :=
  let r := evictLoop size t.current_size t.table.reverse
  { max_size := size, current_size := r.1, table := r.2.reverse }

/-- `Table::push`: account the new entry, push it at the front, then re-run
eviction against the unchanged budget. -/
def Table.push (t : Table) (name value : String) : Table :=
  let entry := TableEntry.new name value
  Table.resize { t with current_size := t.current_size + entry.size,
                        table := entry :: t.table } t.max_size

/-- Encoder from src/hpack.rs. -/
structure Encoder where
  table : Table
deriving Repr

/-- `Encoder::with_size`. -/
def Encoder.with_size (dynamic_table_size : Nat) : Encoder :=
  { table := Table.new dynamic_table_size }

/-- `Encoder::encode`: the body in the source is only `Bytes::new()` — it
returns the empty byte sequence for every header list and never touches the
table. -/
def Encoder.encode (_e : Encoder) (_headers : List (String × String)) : List Nat :=
  []

/-- Decoder from src/hpack.rs. -/
structure Decoder where
  table : Table
deriving Repr

/-- `Decoder::with_size`. -/
def Decoder.with_size (dynamic_table_size : Nat) : Decoder :=
  { table := Table.new dynamic_table_size }

/-- `Decoder::decode`: the body in the source is only `Vec::new()` — it
returns the empty header list for every input. -/
def Decoder.decode (_d : Decoder) (_data : List Nat) : List (String × String) :=
  []

/-- Sum of entry sizes of a deque: the quantity the RFC budget is measured in. -/
def sizeSum (l : List TableEntry) : Nat :=
  (l.map TableEntry.size).sum

/-- The recorded current size agrees with the sum over entries of
(name length + value length + 32). -/
def Table.sizeInv (t : Table) : Prop :=
  t.current_size = sizeSum t.table

instance (t : Table) : Decidable t.sizeInv := by
  unfold Table.sizeInv; infer_instance

end Hpack

namespace Coordinator

/-- The part of the Stream entity (src/stream.rs) that `Stream::new(id,
window_remaining)` fixes; the remaining fields (buffers, channel, priority
data) start empty and play no role in id allocation. -/
structure CStream where
  id : Nat
  window_remaining : Nat
deriving DecidableEq, Repr

/-- StreamCoordinator from src/stream_coordinator.rs: the AtomicU32 id
counter (values below 2^32; fetch_add wraps) and the id-keyed stream map,
modelled as an association list in insertion order. -/
structure StreamCoordinator where
  id : Nat
  streams : List (Nat × CStream)
deriving DecidableEq, Repr

/-- `StreamCoordinator::default`: counter starts at 1, empty map. -/
def StreamCoordinator.default : StreamCoordinator :=
  { id := 1, streams := [] }

/-- The state effect of `StreamCoordinator::with_stream(id, f)`: if `id` is
absent, or_insert_with runs the closure, whose fetch_update bumps the counter
to `id + 1` when `id` is at least the current counter, and a fresh
`Stream::new(id, 65_535)` is inserted. -/
def StreamCoordinator.with_stream (c : StreamCoordinator) (id : Nat) : StreamCoordinator :=
  if (c.streams.map Prod.fst).contains id then c
  else
    let c' := if c.id ≤ id then { c with id := (id + 1) % 2 ^ 32 } else c
    { c' with streams := c'.streams ++ [(id, { id := id, window_remaining := 65535 })] }

/-- The state effect of `StreamCoordinator::with_new_stream`: fetch_add(1)
hands out the previous counter value (wrapping); `NonZeroStreamId::new`
followed by `.expect("stream ID wrapped")` panics when that value is 0,
modelled as `none`; the new id is then passed to `with_stream`. -/
def StreamCoordinator.with_new_stream (c : StreamCoordinator) :
    Option (Nat × StreamCoordinator) :=
  let new_id := c.id
  let c' : StreamCoordinator := { c with id := (c.id + 1) % 2 ^ 32 }
  if new_id = 0 then none
  else some (new_id, c'.with_stream new_id)

/-- The first two ids handed out by `with_new_stream` starting from the
default coordinator. -/
def firstTwoIds : Option (Nat × Nat) :=
  match StreamCoordinator.default.with_new_stream with
  | none => none
  | some (a, c) =>
    match c.with_new_stream with
    | none => none
    | some (b, _) => some (a, b)

end Coordinator

namespace Conn

/-- Frames the PING arm of `handle_frame` (src/connection.rs) can append to
the write buffer via `Frame::into_bytes`; the GoAway debug payload is a
static byte string, modelled as a Lean string. -/
inductive OutFrame
  | ping (ack : Bool) (data : List Nat)
  | goAway (last_stream : Nat) (error : ErrorType) (debug : String)
deriving DecidableEq, Repr

/-- The `Frame::Ping { flags, data }` arm of `handle_frame` in
src/connection.rs: a non-ACK PING with an 8-byte payload is answered with a
PING ACK echoing the payload; a non-ACK PING of any other length enqueues
`GoAway { last_stream: 0, error: ProtocolError, debug: b"invalid ping payload
length" }`; an ACK PING writes nothing. The arm returns `None` (no
response completion), so the write buffer is the whole effect. -/
def handle_ping (ack : Bool) (data : List Nat) (write_buf : List OutFrame) :
    List OutFrame :=
  if !ack then
    if data.length = 8 then
      write_buf ++ [.ping true data]
    else
      write_buf ++ [.goAway 0 .ProtocolError "invalid ping payload length"]
  else
    write_buf

end Conn

namespace Resp

/-- Response from src/response.rs. `crate::types::Headers` is the decoded
header list; per the specification (§3, §6) headers are a list of
(name, value) pairs with duplicates preserved, and names are already
lowercase. The body plays no role in `status`. -/
structure Response where
  request_id : Nat
  headers : List (String × String)
  body : List Nat

/-- `str::to_lowercase` as applied to a header name: per-character
lowercasing (Lean `Char.toLower` agrees with Rust on the ASCII names involved
here), written as a structural map so that it evaluates. -/
def to_lowercase (s : String) : String :=
  ⟨s.data.map Char.toLower⟩

/-- `Response::headers(key)`: lowercase the caller key, keep the values of
all pairs whose name equals it, in order. -/
def Response.headers_values (r : Response) (key : String) : List String :=
  ((r.headers.filter fun kv => kv.1 = to_lowercase key).map Prod.snd)

/-- `Response::header(key)`: first element of the `headers(key)` iterator. -/
def Response.header (r : Response) (key : String) : Option String :=
  (r.headers_values key).head?

/-- `str::parse::<u16>` as used by `Response::status`: an optional leading
plus sign, then at least one ASCII digit, with the value required to fit in
16 bits; anything else is a parse error. -/
def parse_u16 (s : String) : Option Nat :=
  let cs :=
    match s.data with
    | '+' :: rest => rest
    | other => other
  if cs.isEmpty then none
  else if cs.all Char.isDigit then
    let n := cs.foldl (fun acc c => acc * 10 + (c.toNat - 48)) 0
    if n ≤ 65535 then some n else none
  else none

/-- `Response::status`: look up the first `:status` header and parse it as a
u16. The two `expect` calls panic; each panic is modelled as `.error` with
the corresponding expect message. -/
def Response.status (r : Response) : Except String Nat :=
  match r.header ":status" with
  | none => .error "no status in response"
  | some v =>
    match parse_u16 v with
    | none => .error "non-number status"
    | some n => .ok n

end Resp

namespace Wire

/-- Big-endian u32 value of four octets (`u32::from_be_bytes`). -/
def u32_of_be (b0 b1 b2 b3 : Nat) : Nat :=
  ((b0 * 256 + b1) * 256 + b2) * 256 + b3

/-- `u16::to_be_bytes`. -/
def be_bytes_u16 (n : Nat) : List Nat :=
  [n / 2 ^ 8 % 256, n % 256]

/-- `u32::to_be_bytes`. -/
def be_bytes_u32 (n : Nat) : List Nat :=
  [n / 2 ^ 24 % 256, n / 2 ^ 16 % 256, n / 2 ^ 8 % 256, n % 256]

/-- `usize::to_be_bytes` on the usual 64-bit target: eight big-endian octets. -/
def be_bytes_u64 (n : Nat) : List Nat :=
  [n / 2 ^ 56 % 256, n / 2 ^ 48 % 256, n / 2 ^ 40 % 256, n / 2 ^ 32 % 256,
   n / 2 ^ 24 % 256, n / 2 ^ 16 % 256, n / 2 ^ 8 % 256, n % 256]

/-- FrameDecodeError from src/types.rs. -/
inductive FrameDecodeError
  | UnknownType
  | PayloadTooShort
  | ZeroStreamId
  | ZeroWindowIncrement
  | UnknownErrorType (code : Nat)
deriving DecidableEq, Repr

/-- `remove_padding` from src/frame.rs: `data[1..(data.len() - size)]` where
`size = data[0]`. The source performs no bounds check: an empty payload makes
`data[0]` panic, and a pad length at least the payload length makes the
subtraction underflow or the slice bounds invert — both panics, modelled as
`none`. Otherwise the result is octets 1 .. len - size (exclusive). -/
def remove_padding (data : List Nat) : Option (List Nat) :=
  match data with
  | [] => none
  | size :: _ =>
    if data.length ≤ size then none
    else some ((data.drop 1).take (data.length - size - 1))

/-- Frame from src/frame.rs. Flag sets (bitflags over u8) are the underlying
Nat bit patterns; stream ids are the parsed 31-bit values (NonZeroU32 for the
variants that carry one — the decoder enforces nonzeroness, the type here
does not). -/
inductive Frame
  | data (stream : Nat) (flags : Nat) (payload : List Nat)
  | headers (stream : Nat) (flags : Nat) (dependency : Nat)
      (exclusive_dependency : Bool) (weight : Nat) (fragment : List Nat)
  | priority (stream : Nat) (dependency : Nat) (exclusive_dependency : Bool)
      (weight : Nat)
  | resetStream (stream : Nat) (error : ErrorType)
  | settings (flags : Nat) (params : List (SettingsParameter × Nat))
  | pushPromise (stream : Nat) (flags : Nat) (promised_stream : Nat)
      (fragment : List Nat)
  | ping (flags : Nat) (pdata : List Nat)
  | goAway (last_stream : Nat) (error : ErrorType) (debug : List Nat)
  | windowUpdate (stream : Nat) (increment : Nat)
  | continuation (stream : Nat) (flags : Nat) (fragment : List Nat)
deriving DecidableEq, Repr

/-- `Frame::typ`. -/
def Frame.typ : Frame → FrameType
  | .data .. => .Data
  | .headers .. => .Headers
  | .priority .. => .Priority
  | .resetStream .. => .ResetStream
  | .settings .. => .Settings
  | .pushPromise .. => .PushPromise
  | .ping .. => .Ping
  | .goAway .. => .GoAway
  | .windowUpdate .. => .WindowUpdate
  | .continuation .. => .Continuation

/-- `Frame::stream`: stream id written into the header; 0 for the
connection-level variants. -/
def Frame.stream : Frame → Nat
  | .data s .. => s
  | .headers s .. => s
  | .priority s .. => s
  | .resetStream s .. => s
  | .settings .. => 0
  | .pushPromise s .. => s
  | .ping .. => 0
  | .goAway .. => 0
  | .windowUpdate s _ => s
  | .continuation s .. => s

/-- `Frame::flags`: the flag byte; 0 for variants without flags. -/
def Frame.flags : Frame → Nat
  | .data _ f _ => f
  | .headers _ f .. => f
  | .priority .. => 0
  | .resetStream .. => 0
  | .settings f _ => f
  | .pushPromise _ f .. => f
  | .ping f _ => f
  | .goAway .. => 0
  | .windowUpdate .. => 0
  | .continuation _ f _ => f

/-- The `payload[0] &= 0b10000` step the source applies to the first
dependency octet when exclusive_dependency is set (in Headers and Priority
serialization). -/
def maskExclusive : List Nat → List Nat
  | [] => []
  | b :: rest => (b &&& 0b10000) :: rest

/-- `Frame::into_payload`. -/
def Frame.into_payload : Frame → List Nat
  | .data _ _ d => d
  | .headers _ flags dependency exclusive_dependency weight fragment =>
    if flags.testBit 5 then
      (if exclusive_dependency then maskExclusive (be_bytes_u32 dependency)
       else be_bytes_u32 dependency) ++ [weight % 256] ++ fragment
    else fragment
  | .priority _ dependency exclusive_dependency weight =>
    (if exclusive_dependency then maskExclusive (be_bytes_u32 dependency)
     else be_bytes_u32 dependency) ++ [weight % 256]
  | .resetStream _ error => be_bytes_u32 error.code
  | .settings _ params =>
    (params.map fun p => be_bytes_u16 p.1.code ++ be_bytes_u32 p.2).flatten
  | .pushPromise _ _ promised_stream fragment =>
    be_bytes_u32 promised_stream ++ fragment
  | .ping _ d => d
  | .goAway last_stream error debug =>
    be_bytes_u32 last_stream ++ be_bytes_u32 error.code ++ debug
  | .windowUpdate _ increment => be_bytes_u32 increment
  | .continuation _ _ fragment => fragment

/-- `Frame::write_into` (src/frame.rs): the octet sequence handed to the
socket. The length prefix is `payload.len().to_be_bytes()[1..]` — on the
64-bit targets this code runs on, usize has eight octets, so SEVEN length
octets are written — followed by the type and flag octets, the four
stream-id octets, and the payload. -/
def Frame.write_into (f : Frame) : List Nat :=
  let payload := f.into_payload
  (be_bytes_u64 payload.length).drop 1
    ++ [f.typ.code % 256, f.flags % 256]
    ++ be_bytes_u32 f.stream
    ++ payload

/-- The settings loop of `Frame::read_from`: `payload.chunks(6)`, per chunk
the id from octets 0-1 (out of bounds panics), unknown ids skipped, known
ids take the value from octets 2-5 (out of bounds panics). `none` models a
panic. -/
def settings_params (l : List Nat) : Option (List (SettingsParameter × Nat)) :=
  match l with
  | [] => some []
  | a :: tl =>
    let chunk := (a :: tl).take 6
    let rest := (a :: tl).drop 6
    match chunk with
    | b0 :: b1 :: chunkRest =>
      match SettingsParameter.from_u16 (b0 * 256 + b1) with
      | none => settings_params rest
      | some p =>
        match chunkRest with
        | c2 :: c3 :: c4 :: c5 :: _ =>
          (settings_params rest).map fun ps => (p, u32_of_be c2 c3 c4 c5) :: ps
        | _ => none
    | _ => none
termination_by l.length
decreasing_by
  all_goals simp [List.length_drop]; omega

/-- Result of one `Frame::read_from` call against a buffered socket.
`needMoreHeader` is the `Ok(None)` of `read_exact_maybe(9)` coming up short;
`blocked` models `read_exact_blocking` spinning forever because the payload
octets never arrive; `panicked` models an out-of-bounds slice index or
underflow inside the parse; `err` is an early return through `?`; `ok`
carries the frame and the octets left in the socket buffer. -/
inductive ReadResult
  | needMoreHeader
  | blocked
  | panicked
  | err (e : FrameDecodeError)
  | ok (f : Frame) (rest : List Nat)
deriving DecidableEq, Repr

/-- `Frame::read_from` (src/frame.rs) over a byte buffer: 9 header octets
(3 length, 1 type, 1 flags, 4 stream id with the top bit cleared), then
`length` payload octets, then the per-type payload parse, preserving the
evaluation order of the source (payload read before the type check; within
each arm, field initializers run top to bottom so panics precede later `?`
checks exactly as in the source). -/
def Frame.read_from (input : List Nat) : ReadResult :=
  match input with
  | b0 :: b1 :: b2 :: b3 :: b4 :: b5 :: b6 :: b7 :: b8 :: rest =>
    let length := (b0 * 256 + b1) * 256 + b2
    if rest.length < length then .blocked
    else
      let payload := rest.take length
      let remaining := rest.drop length
      match FrameType.from_u8 b3 with
      | none => .err .UnknownType
      | some typ =>
        let flags := b4
        let stream := u32_of_be b5 b6 b7 b8 % 2 ^ 31
        match typ with
        | .Data =>
          let dflags := flags &&& 0x9
          if stream = 0 then .err .ZeroStreamId
          else if dflags.testBit 3 then
            match remove_padding payload with
            | none => .panicked
            | some d => .ok (.data stream dflags d) remaining
          else .ok (.data stream dflags payload) remaining
        | .Headers =>
          let hflags := flags &&& 0x2d
          let stripped? :=
            if hflags.testBit 3 then remove_padding payload else some payload
          match stripped? with
          | none => .panicked
          | some stripped =>
            if stream = 0 then .err .ZeroStreamId
            else if hflags.testBit 5 then
              match stripped with
              | p0 :: p1 :: p2 :: p3 :: p4 :: fragment =>
                .ok (.headers stream hflags (u32_of_be p0 p1 p2 p3 % 2 ^ 31)
                      ((p0 &&& 0b10000) != 0) p4 fragment) remaining
              | _ => .panicked
            else .ok (.headers stream hflags 0 false 0 stripped) remaining
        | .Priority =>
          if stream = 0 then .err .ZeroStreamId
          else
            match payload with
            | p0 :: p1 :: p2 :: p3 :: p4 :: _ =>
              .ok (.priority stream (u32_of_be p0 p1 p2 p3 % 2 ^ 31)
                    ((p0 &&& 0b10000) != 0) p4) remaining
            | _ => .panicked
        | .ResetStream =>
          match payload with
          | p0 :: p1 :: p2 :: p3 :: _ =>
            let raw := u32_of_be p0 p1 p2 p3
            if stream = 0 then .err .ZeroStreamId
            else
              match ErrorType.from_u32 raw with
              | none => .err (.UnknownErrorType raw)
              | some e => .ok (.resetStream stream e) remaining
          | _ => .panicked
        | .Settings =>
          match settings_params payload with
          | none => .panicked
          | some params => .ok (.settings (flags &&& 0x1) params) remaining
        | .PushPromise =>
          let pflags := flags &&& 0xc
          if stream = 0 then .err .ZeroStreamId
          else
            match payload with
            | p0 :: p1 :: p2 :: p3 :: _ =>
              let stripped? :=
                if pflags.testBit 3 then remove_padding payload else some payload
              match stripped? with
              | none => .panicked
              | some stripped =>
                if stripped.length < 4 then .panicked
                else
                  .ok (.pushPromise stream pflags (u32_of_be p0 p1 p2 p3 % 2 ^ 31)
                        (stripped.drop 4)) remaining
            | _ => .panicked
        | .Ping => .ok (.ping (flags &&& 0x1) payload) remaining
        | .GoAway =>
          match payload with
          | p0 :: p1 :: p2 :: p3 :: p4 :: p5 :: p6 :: p7 :: debug =>
            let raw := u32_of_be p4 p5 p6 p7
            match ErrorType.from_u32 raw with
            | none => .err (.UnknownErrorType raw)
            | some e =>
              .ok (.goAway (u32_of_be p0 p1 p2 p3 % 2 ^ 31) e debug) remaining
          | _ => .panicked
        | .WindowUpdate =>
          match payload with
          | p0 :: p1 :: p2 :: p3 :: _ =>
            let increment := u32_of_be p0 p1 p2 p3 % 2 ^ 31
            if increment = 0 then .err .ZeroWindowIncrement
            else .ok (.windowUpdate stream increment) remaining
          | _ => .panicked
        | .Continuation =>
          if stream = 0 then .err .ZeroStreamId
          else .ok (.continuation stream (flags &&& 0x4) payload) remaining
  | _ => .needMoreHeader

end Wire

namespace Machine

/-- StreamState from src/stream.rs: the seven RFC 7540 §5.1 states. -/
inductive StreamState
  | Idle
  | ReservedLocal
  | ReservedRemote
  | Open
  | HalfClosedLocal
  | HalfClosedRemote
  | Closed
deriving DecidableEq, Repr

/-- Continuing from src/stream.rs. -/
inductive Continuing
  | Headers
  | PushPromise
deriving DecidableEq, Repr

/-- DataFlags from src/flags.rs as a record of its two bits. -/
structure DataFlags where
  end_stream : Bool
  padded : Bool
deriving DecidableEq, Repr

/-- HeadersFlags from src/flags.rs. -/
structure HeadersFlags where
  end_stream : Bool
  end_headers : Bool
  padded : Bool
  priority : Bool
deriving DecidableEq, Repr

/-- SettingsFlags from src/flags.rs. -/
structure SettingsFlags where
  ack : Bool
deriving DecidableEq, Repr

/-- PushPromiseFlags from src/flags.rs. -/
structure PushPromiseFlags where
  end_headers : Bool
  padded : Bool
deriving DecidableEq, Repr

/-- PingFlags from src/flags.rs. -/
structure PingFlags where
  ack : Bool
deriving DecidableEq, Repr

/-- ContinuationFlags from src/flags.rs. -/
structure ContinuationFlags where
  end_headers : Bool
deriving DecidableEq, Repr

/-- Flags from src/flags.rs: per-frame-type flag sets plus None. -/
inductive Flags
  | dataF (f : DataFlags)
  | headersF (f : HeadersFlags)
  | settingsF (f : SettingsFlags)
  | pushPromiseF (f : PushPromiseFlags)
  | pingF (f : PingFlags)
  | continuationF (f : ContinuationFlags)
  | noFlags
deriving DecidableEq, Repr

/-- The non-RST_STREAM path of `Stream::transition_state` (src/stream.rs):
derives `h` (END_HEADERS-completing HEADERS, or CONTINUATION while continuing
Headers), `pp` (same for PUSH_PROMISE), `es` (END_STREAM on DATA or HEADERS),
then runs the sequential `if` statements of the source, each reading the
state possibly already updated by an earlier one. -/
def next_state (state : StreamState) (continuing : Option Continuing)
    (recv : Bool) (flags : Flags) : StreamState :=
  let send := !recv
  let h :=
      match flags with
      | .headersF f => f.end_headers
      | .continuationF f =>
        match continuing with
        | some .Headers => f.end_headers
        | _ => false
      | _ => false
    let pp :=
      match flags with
      | .pushPromiseF f => f.end_headers
      | .continuationF f =>
        match continuing with
        | some .PushPromise => f.end_headers
        | _ => false
      | _ => false
    let es :=
      match flags with
      | .dataF f => f.end_stream
      | .headersF f => f.end_stream
      | _ => false
  let s1 :=
    if state = StreamState.Idle then
      if send && pp then StreamState.ReservedLocal
      else if recv && pp then StreamState.ReservedRemote
      else if h then StreamState.Open
      else state
    else state
  let s2 := if s1 = StreamState.ReservedLocal && send && h then StreamState.HalfClosedRemote else s1
  let s3 := if s2 = StreamState.ReservedRemote && recv && h then StreamState.HalfClosedLocal else s2
  let s4 := if s3 = StreamState.Open && send && es then StreamState.HalfClosedLocal else s3
  let s5 := if s4 = StreamState.Open && recv && es then StreamState.HalfClosedRemote else s4
  let s6 := if s5 = StreamState.HalfClosedRemote && send && es then StreamState.Closed else s5
  let s7 := if s6 = StreamState.HalfClosedLocal && recv && es then StreamState.Closed else s6
  s7

/-- `Stream::transition_state` itself: RST_STREAM short-circuits (error on
Idle, Closed otherwise); every other frame type resolves to `next_state`. -/
def transition_state (state : StreamState) (continuing : Option Continuing)
    (recv : Bool) (ty : FrameType) (flags : Flags) : Except String StreamState :=
  if ty = FrameType.ResetStream then
    if state = StreamState.Idle then .error "ResetStream on Idle"
    else .ok StreamState.Closed
  else .ok (next_state state continuing recv flags)

/-- Modelled from the spec: the FrameHeader record of §3
(`{length: u24, type, flags, stream_id}`) held in
`ConnectionState.pending_frame_header`; the src/connection.rs revision
defining it is not under src/. -/
structure FrameHeader where
  length : Nat
  ty : FrameType
  flags : Flags
  stream_id : Nat
deriving DecidableEq, Repr

/-- Payload of a frame queued into the connection write buffer; the Data arm
of `Stream::handle_frame` queues only WINDOW_UPDATE. -/
inductive QueuedPayload
  | windowUpdate (increment : Nat)
deriving DecidableEq, Repr

/-- A frame queued into the connection write buffer: its header stream id
and its payload. -/
structure QueuedFrame where
  stream_id : Nat
  payload : QueuedPayload
deriving DecidableEq, Repr

/-- Modelled from the spec: `FramePayload::write_into(write_buf, stream,
flags)` of the src/frame.rs revision that is not under src/ — §4.2 says
serialization is the inverse of the parse and writes the frame header with
the stream id; §3 reserves stream id 0 for connection-level frames, so
passing no stream (`None`) writes id 0, and passing a stream writes that
stream's id. The effect on the write buffer is appending the frame. -/
def write_into (p : QueuedPayload) (write_buf : List QueuedFrame)
    (stream : Option Nat) : List QueuedFrame :=
  write_buf ++ [{ stream_id := stream.getD 0, payload := p }]

/-- Stream from src/stream.rs. `response_tx` (an Option of a one-shot
channel sender) is tracked by presence; `response_headers` keeps the decoded
(name, value) multimap as a list. -/
structure Stream where
  id : Nat
  response_tx : Bool
  window_remaining : Nat
  state : StreamState
  continuing : Option Continuing
  dependency : Option Nat
  exclusive_dependency : Option Bool
  weight : Option Nat
  headers_buffer : List Nat
  body_buffer : List Nat
  response_headers : List (String × List String)
deriving DecidableEq, Repr

/-- The `(Flags::Data, FramePayload::Data)` arm of `Stream::handle_frame`
(src/stream.rs), including the preceding `transition_state(true, header.ty,
header.flags)` call: when the header length (a u24, used as the nonzero u32
check `NonZeroU32::new(header.length as u32)`) is nonzero, one WINDOW_UPDATE
with that increment is written for this stream and one for the connection;
the data octets are appended to the body buffer; END_STREAM triggers
`send_response`, which takes the response sender. -/
def Stream.handle_frame_data (s : Stream) (header : FrameHeader)
    (dflags : DataFlags) (dataOctets : List Nat) (write_buf : List QueuedFrame) :
    Except String (Stream × List QueuedFrame) :=
  match transition_state s.state s.continuing true header.ty header.flags with
  | .error e => .error e
  | .ok st =>
    let s := { s with state := st }
    let wb :=
      if header.length ≠ 0 then
        write_into (.windowUpdate header.length)
          (write_into (.windowUpdate header.length) write_buf (some s.id)) none
      else write_buf
    let s := { s with body_buffer := s.body_buffer ++ dataOctets }
    let s := if dflags.end_stream then { s with response_tx := false } else s
    .ok (s, wb)

end Machine

end Http2

open Http2

/-! ## Supporting lemmas -/

theorem hpack_sizeSum_cons (e : Hpack.TableEntry) (l : List Hpack.TableEntry) :
    Hpack.sizeSum (e :: l) = e.size + Hpack.sizeSum l := by
  simp [Hpack.sizeSum]

theorem hpack_sizeSum_append (l₁ l₂ : List Hpack.TableEntry) :
    Hpack.sizeSum (l₁ ++ l₂) = Hpack.sizeSum l₁ + Hpack.sizeSum l₂ := by
  simp [Hpack.sizeSum]

theorem hpack_sizeSum_reverse (l : List Hpack.TableEntry) :
    Hpack.sizeSum l.reverse = Hpack.sizeSum l := by
  simp [Hpack.sizeSum, List.map_reverse, List.sum_reverse]

theorem evictLoop_fst_eq_sizeSum (m : Nat) :
    ∀ (l : List Hpack.TableEntry) (cur : Nat), cur = Hpack.sizeSum l →
      (Hpack.evictLoop m cur l).1 = Hpack.sizeSum (Hpack.evictLoop m cur l).2 := by
  intro l
  induction l with
  | nil =>
    intro cur h
    simpa [Hpack.evictLoop, Hpack.sizeSum] using h
  | cons e tl ih =>
    intro cur h
    unfold Hpack.evictLoop
    split
    · apply ih
      rw [h, hpack_sizeSum_cons]
      omega
    · simpa using h

theorem evictLoop_fst_le (m : Nat) :
    ∀ (l : List Hpack.TableEntry) (cur : Nat), cur = Hpack.sizeSum l →
      (Hpack.evictLoop m cur l).1 ≤ m := by
  intro l
  induction l with
  | nil =>
    intro cur h
    have h0 : cur = 0 := by simpa [Hpack.sizeSum] using h
    simp [Hpack.evictLoop, h0]
  | cons e tl ih =>
    intro cur h
    unfold Hpack.evictLoop
    split
    · apply ih
      rw [h, hpack_sizeSum_cons]
      omega
    · omega

theorem evictLoop_snd_suffix (m : Nat) :
    ∀ (l : List Hpack.TableEntry) (cur : Nat),
      (Hpack.evictLoop m cur l).2 <:+ l := by
  intro l
  induction l with
  | nil => intro cur; simp [Hpack.evictLoop]
  | cons e tl ih =>
    intro cur
    unfold Hpack.evictLoop
    split
    · exact (ih _).trans (List.suffix_cons e tl)
    · simp

theorem evictLoop_oversized (m : Nat) (e : Hpack.TableEntry) (hm : m < e.size) :
    ∀ (l : List Hpack.TableEntry) (cur : Nat), cur = Hpack.sizeSum (l ++ [e]) →
      Hpack.evictLoop m cur (l ++ [e]) = (0, []) := by
  intro l
  induction l with
  | nil =>
    intro cur h
    have hc : cur = e.size := by
      simpa [Hpack.sizeSum] using h
    subst hc
    simp [Hpack.evictLoop, hm, Nat.sub_self]
  | cons a tl ih =>
    intro cur h
    have hTl : Hpack.sizeSum (tl ++ [e]) = Hpack.sizeSum tl + e.size := by
      rw [hpack_sizeSum_append]
      simp [Hpack.sizeSum]
    have hsz : cur = a.size + (Hpack.sizeSum tl + e.size) := by
      rw [h, List.cons_append, hpack_sizeSum_cons, hTl]
    show Hpack.evictLoop m cur ((a :: tl) ++ [e]) = (0, [])
    rw [List.cons_append]
    unfold Hpack.evictLoop
    rw [if_pos (by omega : m < cur)]
    apply ih
    rw [hTl]
    omega

theorem table_resize_props (t : Hpack.Table) (s : Nat) (h : t.sizeInv) :
    (t.resize s).sizeInv ∧ (t.resize s).current_size ≤ s ∧
      (t.resize s).table <+: t.table := by
  have hrev : t.current_size = Hpack.sizeSum t.table.reverse := by
    rw [hpack_sizeSum_reverse]; exact h
  refine ⟨?_, ?_, ?_⟩
  · show (Hpack.evictLoop s t.current_size t.table.reverse).1
      = Hpack.sizeSum (Hpack.evictLoop s t.current_size t.table.reverse).2.reverse
    rw [hpack_sizeSum_reverse]
    exact evictLoop_fst_eq_sizeSum s _ _ hrev
  · exact evictLoop_fst_le s _ _ hrev
  · obtain ⟨p, hp⟩ := evictLoop_snd_suffix s t.table.reverse t.current_size
    refine ⟨p.reverse, ?_⟩
    show (Hpack.evictLoop s t.current_size t.table.reverse).2.reverse ++ p.reverse
      = t.table
    rw [← List.reverse_append, hp, List.reverse_reverse]

/-- First match of a filter is the first witness of the predicate. -/
theorem filter_head?_eq_find? {α : Type} (p : α → Bool) (l : List α) :
    (l.filter p).head? = l.find? p := by
  induction l with
  | nil => rfl
  | cons a tl ih =>
    by_cases h : p a
    · simp [List.filter_cons, h, List.find?_cons_of_pos]
    · simp [List.filter_cons, h, List.find?_cons_of_neg, ih]

theorem response_header_status (r : Resp.Response) :
    r.header ":status"
      = (r.headers.find? fun kv => kv.1 = ":status").map Prod.snd := by
  show ((r.headers.filter fun kv => kv.1 = Resp.to_lowercase ":status").map
      Prod.snd).head?
    = (r.headers.find? fun kv => kv.1 = ":status").map Prod.snd
  rw [show Resp.to_lowercase ":status" = ":status" from by decide]
  rw [List.head?_map, filter_head?_eq_find?]

/-! ## Claim theorems -/

/-- C1: the frame round-trip claim fails on the code. `Frame::write_into`
writes `payload.len().to_be_bytes()[1..]` — seven length octets (usize is
eight octets on the 64-bit targets this client runs on), not three — so a
serialized PING carries a 13-octet header, and feeding the writer output back
into `Frame::read_from` misparses it as a DATA frame on stream 525824 instead
of returning the original frame. -/
theorem C1_frame_roundtrip_fails :
    Wire.Frame.read_from ((Wire.Frame.ping 0 [1, 2, 3, 4, 5, 6, 7, 8]).write_into)
      = .ok (.data 525824 0 []) [0, 0, 0, 0, 1, 2, 3, 4, 5, 6, 7, 8]
  ∧ Wire.Frame.data 525824 0 [] ≠ .ping 0 [1, 2, 3, 4, 5, 6, 7, 8]
  ∧ ((Wire.Frame.ping 0 [1, 2, 3, 4, 5, 6, 7, 8]).write_into).take 7
      = [0, 0, 0, 0, 0, 0, 8]
  ∧ ((Wire.Frame.ping 0 [1, 2, 3, 4, 5, 6, 7, 8]).write_into).length = 21 := by
  decide

/-- C2: the HPACK round-trip claim fails on the code. `Encoder::encode`
returns the empty byte string for every header list and `Decoder::decode`
returns the empty list for every input, so decode of encode of the header
list from the crate test is the empty list, not the original list, and the
encoder output is one fixed constant across distinct non-empty lists. -/
theorem C2_hpack_encode_stub :
    Hpack.Decoder.decode (Hpack.Decoder.with_size 4096)
        (Hpack.Encoder.encode (Hpack.Encoder.with_size 4096)
          [(":method", "GET"), (":path", "/")]) = []
  ∧ ([] : List (String × String)) ≠ [(":method", "GET"), (":path", "/")]
  ∧ Hpack.Encoder.encode (Hpack.Encoder.with_size 4096)
        [(":method", "GET"), (":path", "/")]
      = Hpack.Encoder.encode (Hpack.Encoder.with_size 4096)
        [("content-length", "0")] := by
  refine ⟨rfl, by decide, rfl⟩

/-- C3: the allocation claim fails on the code. `StreamCoordinator::default`
starts the counter at 1 and `with_new_stream` uses fetch_add(1), so the first
two allocated ids are 1 and 2: the first id is not 3, the step is 1 not 2,
and the second id is even. -/
theorem C3_allocator_starts_at_one :
    Coordinator.firstTwoIds = some (1, 2)
  ∧ (2 : Nat) % 2 = 0
  ∧ (1 : Nat) ≠ 3 := by
  decide

/-- C4 counterexample: a non-ACK PING with an empty payload makes the engine
enqueue a GOAWAY whose error code is ProtocolError, which is not the
FrameSizeError the claim requires. -/
theorem C4_counterexample :
    Conn.handle_ping false [] []
      = [.goAway 0 .ProtocolError "invalid ping payload length"]
  ∧ ErrorType.ProtocolError ≠ ErrorType.FrameSizeError := by
  refine ⟨rfl, by decide⟩

/-- C4 amended: a non-ACK PING with an 8-octet payload is answered by exactly
one PING ACK echoing the payload; a non-ACK PING of any other length
enqueues exactly one GOAWAY connection error with code ProtocolError (not
FrameSizeError) and the fixed debug text; a PING with the ACK flag is never
answered. -/
theorem C4_ping_amended (ack : Bool) (pdata : List Nat)
    (wb : List Conn.OutFrame) :
    (ack = false → pdata.length = 8 →
      Conn.handle_ping ack pdata wb = wb ++ [.ping true pdata])
  ∧ (ack = false → pdata.length ≠ 8 →
      Conn.handle_ping ack pdata wb
        = wb ++ [.goAway 0 .ProtocolError "invalid ping payload length"])
  ∧ (ack = true → Conn.handle_ping ack pdata wb = wb) := by
  refine ⟨fun ha h8 => ?_, fun ha h8 => ?_, fun ha => ?_⟩ <;> subst ha
  · simp [Conn.handle_ping, h8]
  · simp [Conn.handle_ping, h8]
  · simp [Conn.handle_ping]

/-- C4 witness: the amended behavior at a concrete 8-octet non-ACK PING. -/
theorem C4_ping_witness :
    Conn.handle_ping false [0, 1, 2, 3, 4, 5, 6, 7] []
      = [.ping true [0, 1, 2, 3, 4, 5, 6, 7]] :=
  (C4_ping_amended false [0, 1, 2, 3, 4, 5, 6, 7] []).1 rfl (by decide)

/-- C5: the padded-DATA claim fails on the code: a PADDED DATA frame whose
pad length octet (5) is at least the payload length (1) drives
`remove_padding` into an unchecked slice whose bounds underflow — a panic,
not a PROTOCOL_ERROR result; when the pad length is below the payload length
the delivered octets are exactly octets 1 .. length - P of the payload, as
the second conjunct shows concretely. -/
theorem C5_padded_data_panics :
    Wire.Frame.read_from [0, 0, 1, 0, 8, 0, 0, 0, 1, 5] = .panicked
  ∧ Wire.remove_padding [5] = none
  ∧ Wire.Frame.read_from [0, 0, 3, 0, 8, 0, 0, 0, 1, 1, 42, 99]
      = .ok (.data 1 8 [42]) [] := by
  decide

/-- C6: `Stream::transition_state` on a RST_STREAM event returns an error
when the stream is Idle (the connection-fatal condition the spec classifies
as PROTOCOL_ERROR) and moves every non-Idle state to Closed, for sent and
received RST_STREAM alike and for every flag set and continuation state. -/
theorem C6_rst_transition (s : Machine.StreamState)
    (cont : Option Machine.Continuing) (recv : Bool) (flags : Machine.Flags) :
    (s = .Idle →
      Machine.transition_state s cont recv .ResetStream flags
        = .error "ResetStream on Idle")
  ∧ (s ≠ .Idle →
      Machine.transition_state s cont recv .ResetStream flags
        = .ok .Closed) := by
  constructor
  · intro h
    subst h
    simp [Machine.transition_state]
  · intro h
    simp [Machine.transition_state, h]

/-- C6 witness: a received RST_STREAM on an Open stream closes it. -/
theorem C6_rst_witness :
    Machine.transition_state .Open none true .ResetStream .noFlags
      = .ok .Closed :=
  (C6_rst_transition .Open none true .noFlags).2 (by decide)

/-- C7: the table-lookup claim fails on the code. `Table::get` reaches the
dynamic deque at offset `index - 61`, but the deque front (offset 0) is the
most recent entry, so index 62 returns the SECOND most recent entry — here
the older of two pushed entries, while the newest sits at the front — and
the newest entry is unreachable. The last conjunct checks the static half of
the claim at index 1. -/
theorem C7_dynamic_lookup_off_by_one :
    (((Hpack.Table.new 4096).push "x-old" "1").push "x-new" "2").get 62
      = some (Hpack.TableEntry.new "x-old" "1")
  ∧ (((Hpack.Table.new 4096).push "x-old" "1").push "x-new" "2").table.head?
      = some (Hpack.TableEntry.new "x-new" "2")
  ∧ Hpack.TableEntry.new "x-old" "1" ≠ Hpack.TableEntry.new "x-new" "2"
  ∧ (Hpack.Table.new 4096).get 1 = some (Hpack.TableEntry.new ":authority" "") := by
  decide

/-- C8: for any table whose recorded size is the sum over entries of
(name length + value length + 32), after `Table::push` or `Table::resize`
the recorded size still equals that sum and is within the configured budget;
eviction removes only the oldest entries, so the surviving deque is a prefix
of the pushed deque; and pushing an entry larger than the whole budget
leaves the table empty. -/
theorem C8_dynamic_table_budget (t : Hpack.Table) (name value : String)
    (sz : Nat) (h : t.sizeInv) :
    ((t.push name value).sizeInv
      ∧ (t.push name value).current_size ≤ (t.push name value).max_size)
  ∧ ((t.resize sz).sizeInv
      ∧ (t.resize sz).current_size ≤ (t.resize sz).max_size)
  ∧ (t.push name value).table <+: (Hpack.TableEntry.new name value :: t.table)
  ∧ (t.max_size < (Hpack.TableEntry.new name value).size →
      (t.push name value).table = []) := by
  have hmid :
      (Hpack.Table.mk t.max_size
          (t.current_size + (Hpack.TableEntry.new name value).size)
          (Hpack.TableEntry.new name value :: t.table)).sizeInv := by
    show t.current_size + (Hpack.TableEntry.new name value).size
      = Hpack.sizeSum (Hpack.TableEntry.new name value :: t.table)
    rw [hpack_sizeSum_cons, h]
    omega
  obtain ⟨hp1, hp2, hp3⟩ := table_resize_props
    (Hpack.Table.mk t.max_size
      (t.current_size + (Hpack.TableEntry.new name value).size)
      (Hpack.TableEntry.new name value :: t.table)) t.max_size hmid
  obtain ⟨hr1, hr2, hr3⟩ := table_resize_props t sz h
  refine ⟨⟨hp1, hp2⟩, ⟨hr1, hr2⟩, hp3, fun hbig => ?_⟩
  show ((Hpack.evictLoop t.max_size
      (t.current_size + (Hpack.TableEntry.new name value).size)
      ((Hpack.TableEntry.new name value :: t.table).reverse)).2).reverse = []
  rw [List.reverse_cons]
  rw [evictLoop_oversized t.max_size (Hpack.TableEntry.new name value) hbig
    t.table.reverse
    (t.current_size + (Hpack.TableEntry.new name value).size)
    (by rw [hpack_sizeSum_append, hpack_sizeSum_reverse, ← h]; simp [Hpack.sizeSum])]
  rfl

/-- C8 witness: pushing a 34-octet entry into an empty table with a 10-octet
budget leaves the table empty, and the invariants hold at that input. -/
theorem C8_witness :
    (Hpack.Table.new 10).sizeInv
  ∧ ((Hpack.Table.new 10).push "a" "b").sizeInv
  ∧ ((Hpack.Table.new 10).push "a" "b").table = [] :=
  ⟨by decide,
   (C8_dynamic_table_budget (Hpack.Table.new 10) "a" "b" 10 (by decide)).1.1,
   (C8_dynamic_table_budget (Hpack.Table.new 10) "a" "b" 10 (by decide)).2.2.2
     (by decide)⟩

/-- C9: the Data arm of `Stream::handle_frame` replenishes flow control:
for every received DATA frame whose header length L (padding included) is
nonzero, exactly two WINDOW_UPDATE frames are appended to the write buffer —
first one for this stream, then one for the connection (stream id 0) — both
with increment L. -/
theorem C9_window_update_replenish (s : Machine.Stream)
    (header : Machine.FrameHeader) (dflags : Machine.DataFlags)
    (dataOctets : List Nat) (wb : List Machine.QueuedFrame)
    (hty : header.ty = .Data) (hlen : header.length ≠ 0) :
    Except.map Prod.snd (s.handle_frame_data header dflags dataOctets wb)
      = .ok (wb ++ [{ stream_id := s.id, payload := .windowUpdate header.length },
                    { stream_id := 0, payload := .windowUpdate header.length }]) := by
  unfold Machine.Stream.handle_frame_data
  rw [hty]
  have htr : Machine.transition_state s.state s.continuing true FrameType.Data
      header.flags
      = .ok (Machine.next_state s.state s.continuing true header.flags) := by
    simp [Machine.transition_state]
  rw [htr]
  simp [hlen, Machine.write_into, Except.map]

/-- C9 witness: a 3-octet DATA frame on stream 5 queues the two
WINDOW_UPDATE frames with increment 3. -/
theorem C9_window_update_witness :
    Except.map Prod.snd (Machine.Stream.handle_frame_data
        { id := 5, response_tx := true, window_remaining := 65535,
          state := .Open, continuing := none, dependency := none,
          exclusive_dependency := none, weight := none, headers_buffer := [],
          body_buffer := [], response_headers := [] }
        { length := 3, ty := .Data, flags := .dataF ⟨false, false⟩, stream_id := 5 }
        ⟨false, false⟩ [7, 8, 9] [])
      = .ok [{ stream_id := 5, payload := .windowUpdate 3 },
             { stream_id := 0, payload := .windowUpdate 3 }] :=
  C9_window_update_replenish _ _ _ _ _ rfl (by decide)

/-- C10: `Response::status` is partial exactly as claimed: with no `:status`
header it panics with "no status in response", with a first `:status` value
that does not parse as a u16 it panics with "non-number status", and it
returns the parsed u16 precisely when the first `:status` value is numeric
(panics modelled as `.error`). -/
theorem C10_status_panics_or_parses (r : Resp.Response) :
    ((∀ kv ∈ r.headers, kv.1 ≠ ":status") →
      r.status = .error "no status in response")
  ∧ (∀ nm v, r.headers.find? (fun kv => kv.1 = ":status") = some (nm, v) →
      Resp.parse_u16 v = none → r.status = .error "non-number status")
  ∧ (∀ nm v n, r.headers.find? (fun kv => kv.1 = ":status") = some (nm, v) →
      Resp.parse_u16 v = some n → r.status = .ok n) := by
  have hh := response_header_status r
  refine ⟨?_, ?_, ?_⟩
  · intro h
    have hnone : r.headers.find? (fun kv => kv.1 = ":status") = none := by
      rw [List.find?_eq_none]
      intro x hx
      simpa using h x hx
    unfold Resp.Response.status
    rw [hh, hnone]
    rfl
  · intro nm v hfind hparse
    unfold Resp.Response.status
    rw [hh, hfind]
    simp [hparse]
  · intro nm v n hfind hparse
    unfold Resp.Response.status
    rw [hh, hfind]
    simp [hparse]

/-- C10 witness: a response whose first `:status` header is "200" yields 200. -/
theorem C10_status_witness :
    Resp.Response.status
      { request_id := 1,
        headers := [("content-type", "text/plain"), (":status", "200")],
        body := [] } = .ok 200 :=
  (C10_status_panics_or_parses _).2.2 ":status" "200" 200 (by decide) (by decide)
